import Mathlib

/-!
Verification development for the metal-drops repository.

The file shallowly embeds the two source modules:

* `src/discord-accounts.js` — daily claim limit bookkeeping backed by a
  key-value store (`localStorage`) and a CSV parser for the published
  spreadsheet (namespaces `Accounts` and `Csv`).
* `src/black-hole.js` — the black-hole animation: mode controller with
  snapshot store (namespace `Snap`), the per-frame suction update
  (namespace `Suction`), and the per-frame float/bounce update
  (namespace `Floats`).

Numeric animation code (JS doubles) is modelled over `ℝ`; string-valued
style attributes over `String`; the stored counter over `Int`.
-/

namespace Accounts

/-- The slice of `localStorage` that `discord-accounts.js` reads and writes:
the `takenGames` JSON blob is modelled by its two fields, and the
`extraAccounts` numeric string by its integer value (`none` = key absent;
`parseInt(x || '0', 10)` becomes `Option.getD 0`). -/
structure Storage where
  takenDate : Option String
  takenGame : Option String
  extraAccounts : Option Int
deriving DecidableEq

/-- `parseInt(localStorage.getItem('extraAccounts') || '0', 10)`. -/
def extraCount (s : Storage) : Int := s.extraAccounts.getD 0

/-- `hasTakenGameToday` (src/discord-accounts.js lines 25-29):
`takenGames.date === today`. -/
def hasTakenGameToday (today : String) (s : Storage) : Bool :=
  s.takenDate = some today

/-- `canTakeGame` (lines 46-51): `takenGames.date !== today || extraAccounts > 0`. -/
def canTakeGame (today : String) (s : Storage) : Bool :=
  s.takenDate ≠ some today || 0 < extraCount s

/-- `useExtraAccount` (lines 54-61): decrement the stored counter when it is
strictly positive and report whether a decrement happened. -/
def useExtraAccount (s : Storage) : Bool × Storage :=
  let n := extraCount s
  if 0 < n then (true, { s with extraAccounts := some (n - 1) }) else (false, s)

/-- `saveGameToday` (lines 38-43): store `{ date: today, game: gameName }`. -/
def saveGameToday (today game : String) (s : Storage) : Storage :=
  { s with takenDate := some today, takenGame := some game }

/-- Storage effect of `showAccountModal` (lines 222-250): bail out when
`canTakeGame` is false; otherwise consume an extra account when a game was
already taken today, then record today's game.  (DOM/modal rendering is
outside the store and not modelled.) -/
def showAccountModalStore (today game : String) (s : Storage) : Storage :=
  if canTakeGame today s = false then s
  else
    let s1 := if hasTakenGameToday today s then (useExtraAccount s).2 else s
    saveGameToday today game s1

end Accounts

namespace Csv

/-- White space removed by `String.prototype.trim` (ASCII subset that can
occur in the fetched CSV text). -/
def isJsSpace (c : Char) : Bool :=
  c = ' ' || c = '\t' || c = '\n' || c = '\r'

/-- `str.trim()` on a list of characters. -/
def jsTrim (l : List Char) : List Char :=
  ((l.dropWhile isJsSpace).reverse.dropWhile isJsSpace).reverse

/-- `str.split('\n')`: always returns at least one (possibly empty) line. -/
def splitNl : List Char → List (List Char)
  | [] => [[]]
  | c :: rest =>
      if c = '\n' then [] :: splitNl rest
      else
        match splitNl rest with
        | [] => [[c]]
        | line :: ls => (c :: line) :: ls

/-- Loop body of `parseCSVLine` (src/discord-accounts.js lines 151-166):
`current` is kept reversed; each field is pushed through `.trim()`. -/
def parseCSVLineAux : List Char → Bool → List Char → List (List Char) →
    List (List Char)
  | [], _, current, acc => acc ++ [jsTrim current.reverse]
  | c :: rest, inQuotes, current, acc =>
      if c = '"' then parseCSVLineAux rest (!inQuotes) current acc
      else if c = ',' && !inQuotes then
        parseCSVLineAux rest inQuotes [] (acc ++ [jsTrim current.reverse])
      else parseCSVLineAux rest inQuotes (c :: current) acc

/-- `parseCSVLine` (lines 151-166). -/
def parseCSVLine (l : List Char) : List (List Char) :=
  parseCSVLineAux l false [] []

/-- The object built by `parseCSV`, as an insertion-ordered association list
(JS object property order). -/
abbrev CsvMap := List (List Char × List (List Char))

/-- `data[gameName] = accounts`: overwrite in place when the key exists,
else append. -/
def setKey (m : CsvMap) (k : List Char) (v : List (List Char)) : CsvMap :=
  if m.any (fun q => q.1 = k) then
    m.map (fun q => if q.1 = k then (k, v) else q)
  else m ++ [(k, v)]

/-- The data-row loop of `parseCSV` (lines 137-146). -/
def processRows : List (List Char) → CsvMap → CsvMap
  | [], m => m
  | line :: rest, m =>
      let values := parseCSVLine line
      if values.length = 0 then processRows rest m
      else
        let gameName := values.headD []
        if gameName = [] then processRows rest m
        else
          let accounts :=
            (values.drop 1).filter fun a => !a.isEmpty && !(jsTrim a).isEmpty
          if 0 < accounts.length then processRows rest (setKey m gameName accounts)
          else processRows rest m

/-- `parseCSV` (lines 130-149).  The header line (`parseCSVLine lines[0]`)
is computed and discarded in the source; only the data rows feed the map. -/
def parseCSV (csv : List Char) : Option CsvMap :=
  let lines := splitNl (jsTrim csv)
  if lines.length < 2 then none
  else some (processRows (lines.drop 1) [])

/-- Shape of a well-formed entry: non-empty game name, non-empty account
list, every account non-empty and non-blank. -/
def goodEntry (p : List Char × List (List Char)) : Prop :=
  p.1 ≠ [] ∧ p.2 ≠ [] ∧ ∀ a ∈ p.2, a ≠ [] ∧ jsTrim a ≠ []

end Csv

noncomputable section

namespace Floats

/-- A `floatData` record as used by `animateFloatingElements` and
`startDrag` (src/black-hole.js): centre position `x`,`y`, velocity
`vx`,`vy`, plus the bounding-box extents `w`,`h` that the source reads from
`getBoundingClientRect()` on every frame. -/
structure FloatBody where
  x : ℝ
  y : ℝ
  vx : ℝ
  vy : ℝ
  w : ℝ
  h : ℝ

/-- Air resistance (src/black-hole.js lines 280-282):
`vx *= 0.98; vy *= 0.98`. -/
def dampStep (b : FloatBody) : FloatBody :=
  { b with vx := b.vx * 0.98, vy := b.vy * 0.98 }

/-- Random floating motion (lines 284-286):
`v += (Math.random() - 0.5) * 0.5` per axis; the two `Math.random()` draws
are the parameters `r1`, `r2`. -/
def jitterStep (r1 r2 : ℝ) (b : FloatBody) : FloatBody :=
  { b with vx := b.vx + (r1 - 0.5) * 0.5, vy := b.vy + (r2 - 0.5) * 0.5 }

/-- Velocity limiter (lines 288-294): when
`Math.sqrt(vx ** 2 + vy ** 2)` exceeds 4, rescale both components by
`4 / speed`. -/
def clampStep (b : FloatBody) : FloatBody :=
  let speed := Real.sqrt (b.vx ^ 2 + b.vy ^ 2)
  if speed > 4 then { b with vx := b.vx / speed * 4, vy := b.vy / speed * 4 }
  else b

/-- Position integration (lines 296-298): `x += vx; y += vy`. -/
def integrateStep (b : FloatBody) : FloatBody :=
  { b with x := b.x + b.vx, y := b.y + b.vy }

/-- Edge bounce (lines 300-316): four sequential checks against the
viewport `W × H`, each clamping the centre to the edge and forcing the sign
of the velocity component through `Math.abs`. -/
def bounceStep (W H : ℝ) (b : FloatBody) : FloatBody :=
  let b1 := if b.x - b.w / 2 < 0 then { b with x := b.w / 2, vx := |b.vx| } else b
  let b2 :=
    if b1.x + b1.w / 2 > W then { b1 with x := W - b1.w / 2, vx := -|b1.vx| }
    else b1
  let b3 := if b2.y - b2.h / 2 < 0 then { b2 with y := b2.h / 2, vy := |b2.vy| } else b2
  if b3.y + b3.h / 2 > H then { b3 with y := H - b3.h / 2, vy := -|b3.vy| } else b3

/-- One per-body update of `animateFloatingElements` (lines 276-323) in
source order: damping, jitter, speed clamp, integration, edge bounce.  The
closing style writes copy `x`/`y` into `left`/`top`. -/
def floatTick (W H r1 r2 : ℝ) (b : FloatBody) : FloatBody :=
  bounceStep W H (integrateStep (clampStep (jitterStep r1 r2 (dampStep b))))

/-- Speed as computed at line 290: `Math.sqrt(vx ** 2 + vy ** 2)`. -/
def speedOf (b : FloatBody) : ℝ := Real.sqrt (b.vx ^ 2 + b.vy ^ 2)

/-- Float-phase state: `floatingElements`, the `draggedElement` field (an
index into the list; `none` when no drag session is open), and the
`isActive` flag that gates rescheduling. -/
structure FloatSt where
  bodies : List FloatBody
  dragged : Option ℕ
  isActive : Bool

/-- Map with the element index, as `forEach` supplies it. -/
def mapWithIdxAux (f : ℕ → α → β) : ℕ → List α → List β
  | _, [] => []
  | i, a :: as => f i a :: mapWithIdxAux f (i + 1) as

def mapWithIdx (f : ℕ → α → β) (l : List α) : List β := mapWithIdxAux f 0 l

/-- One frame of `animateFloatingElements` (lines 275-328): every body in
`floatingElements` is updated — the loop consults `draggedElement` nowhere.
`rand i` supplies the two `Math.random()` draws for body `i`. -/
def floatFrame (W H : ℝ) (rand : ℕ → ℝ × ℝ) (st : FloatSt) : FloatSt :=
  { st with
    bodies := mapWithIdx (fun i b => floatTick W H (rand i).1 (rand i).2 b) st.bodies }

end Floats

end

noncomputable section

namespace Suction

/-- Per-element visible state during the suction phase: bounding-box centre
`cx`,`cy` and extents `w`,`h` (from `getBoundingClientRect`), the inline
style values the loop writes (`opacity`, `transform` split into `scale` and
`rot`, `left`/`top` in px, `position:fixed` flag, raised `zIndex`,
`pointer-events:none` flag), plus the two skip conditions of line 183:
`offsetParent` (laid out) and `hasSnapshot` (`elementStates.has(elem)`). -/
structure SElem where
  cx : ℝ
  cy : ℝ
  w : ℝ
  h : ℝ
  opacity : ℝ
  scale : ℝ
  rot : ℝ
  leftPx : ℝ
  topPx : ℝ
  posFixed : Bool
  zIndexUp : Bool
  pointerEventsNone : Bool
  offsetParent : Bool
  hasSnapshot : Bool

/-- JS `%` (line 216); for the nonnegative operands used there it is the
floor-based remainder. -/
def jsMod (a b : ℝ) : ℝ := a - b * ⌊a / b⌋

/-- `baseSpeed * (1 + proximityFactor * 5)` (src/black-hole.js
lines 199-201): `baseSpeed = 8 + progress * 15`,
`proximityFactor = Math.max(0, 1 - distance / 600)`. -/
def suctionSpeed (progress distance : ℝ) : ℝ :=
  (8 + progress * 15) * (1 + max 0 (1 - distance / 600) * 5)

/-- `Math.max(0, fadeDistance * fadeTime)` (lines 221-224):
`fadeDistance = Math.max(0, 1 - distance / 400)`,
`fadeTime = Math.max(0, 1 - progress * 1.5)`. -/
def suctionOpacity (progress distance : ℝ) : ℝ :=
  max 0 (max 0 (1 - distance / 400) * max 0 (1 - progress * 1.5))

/-- Opacity formula exactly as the specification words it:
`max(0, (1 − min(distance, 400)/400) × (1 − 1.5p))`.  Stated from the
spec, to be compared with `suctionOpacity` above, which is stated from the
source. -/
def specOpacity (distance progress : ℝ) : ℝ :=
  max 0 ((1 - min distance 400 / 400) * (1 - 1.5 * progress))

/-- Euclidean distance of the element centre from the black-hole centre
(lines 191-193): `Math.sqrt(dx * dx + dy * dy)`. -/
def distTo (bhx bhy : ℝ) (e : SElem) : ℝ :=
  Real.sqrt ((bhx - e.cx) * (bhx - e.cx) + (bhy - e.cy) * (bhy - e.cy))

/-- Per-element body of the suction `forEach` (lines 182-233).  `bhx`,`bhy`
is `blackHoleCenter`, `nowMs` is `Date.now()`, `idx` the element index.
`Math.cos(Math.atan2(dy, dx))` and `Math.sin(Math.atan2(dy, dx))` are
written as `dx/dist` and `dy/dist`, exact identities, with JS
`atan2(0, 0) = 0` giving the `dist = 0` case.  Because the element is
`position:fixed` with `left = newX - w/2`, its bounding-box centre on the
next frame is `newX`,`newY`. -/
def suctionElemStep (bhx bhy progress nowMs : ℝ) (idx : ℕ) (e : SElem) : SElem :=
  if e.offsetParent = false ∨ e.hasSnapshot = false then e
  else
    let dx := bhx - e.cx
    let dy := bhy - e.cy
    let dist := distTo bhx bhy e
    if progress < 0.8 then
      let speed := suctionSpeed progress dist
      let ux := if dist = 0 then 1 else dx / dist
      let uy := if dist = 0 then 0 else dy / dist
      let newX := e.cx + ux * speed
      let newY := e.cy + uy * speed
      { e with
        cx := newX, cy := newY,
        leftPx := newX - e.w / 2, topPx := newY - e.h / 2,
        posFixed := true, zIndexUp := true,
        rot := jsMod ((idx : ℝ) * 20 + nowMs / 12) 360,
        scale := max 0.01 (1 - min dist 500 / 400),
        opacity := suctionOpacity progress dist }
    else
      { e with opacity := 0, pointerEventsNone := true }

/-- `finalizeBlackHoleAnimation` (lines 246-254): hide every affected
element that is still laid out. -/
def finalizeBlackHoleAnimation (es : List SElem) : List SElem :=
  es.map fun e =>
    if e.offsetParent then { e with opacity := 0, pointerEventsNone := true } else e

/-- State carried across suction frames: `affectedElements`, the
`floatingElements` list (the constructor at line 12 and
`deactivateBlackHole` at line 128 only ever assign `[]` to it, and no other
source line writes it), the black hole's visual radius, and whether another
frame is scheduled. -/
structure SuctionSt where
  elems : List SElem
  floating : List Floats.FloatBody
  holeRadius : ℝ
  scheduled : Bool

/-- One invocation of `animate` inside `startSuckingAnimation`
(lines 168-243): progress is wall-clock based and capped at 1, the hole
radius grows from 100 to 400, every element is updated, and once progress
reaches 1 the frame runs `finalizeBlackHoleAnimation` instead of
rescheduling.  Nothing on this path touches `floating`, and
`transitionToFloating` (lines 256-273) has no call site anywhere in the
source. -/
def animateStep (bhx bhy startTime now : ℝ) (s : SuctionSt) : SuctionSt :=
  let progress := min 1 ((now - startTime) / 3500)
  let elems1 :=
    Floats.mapWithIdx (fun i e => suctionElemStep bhx bhy progress now i e) s.elems
  if progress < 1 then
    { s with elems := elems1, holeRadius := 100 + progress * 300, scheduled := true }
  else
    { s with elems := finalizeBlackHoleAnimation elems1,
             holeRadius := 100 + progress * 300, scheduled := false }

/-- A visible, snapshot-backed element at centre (x, 50), as used in the C1
scenario. -/
def c1Elem (x : ℝ) : SElem :=
  { cx := x, cy := 50, w := 10, h := 10, opacity := 1, scale := 1, rot := 0,
    leftPx := 0, topPx := 0, posFixed := false, zIndexUp := false,
    pointerEventsNone := false, offsetParent := true, hasSnapshot := true }

/-- `c1Elem` after the collapse-phase update. -/
def c1Done (x : ℝ) : SElem :=
  { c1Elem x with opacity := 0, pointerEventsNone := true }

/-- Suction state just after activation with five visible target
elements; `floatingElements` starts out empty. -/
def c1Start : SuctionSt :=
  { elems := [c1Elem 100, c1Elem 200, c1Elem 300, c1Elem 400, c1Elem 500],
    floating := [], holeRadius := 100, scheduled := true }

end Suction

end

namespace Snap

/-- Inline style attributes of a target element that `activateBlackHole`
snapshots and `deactivateBlackHole` resets (lines 52-65 and 101-119). -/
structure Style where
  position : String
  left : String
  top : String
  transform : String
  zIndex : String
  cursor : String
  opacity : String
  pointerEvents : String
deriving DecidableEq

/-- All eight inline properties set to the empty string, as the
deactivation loop leaves them. -/
def clearedStyle : Style := ⟨"", "", "", "", "", "", "", ""⟩

/-- A target element in the document: identity, inline style, the computed
values the snapshot falls back to, and whether `parentElement` is
non-null. -/
structure DomElem where
  id : ℕ
  style : Style
  computedPosition : String
  computedZIndex : String
  attached : Bool
deriving DecidableEq

/-- One `elementStates` record (lines 56-63). -/
structure SnapRec where
  position : String
  left : String
  top : String
  transform : String
  zIndex : String
  cursor : String
deriving DecidableEq

/-- JS `a || b` on strings: the empty string is falsy. -/
def jsOr (a b : String) : String := if a = "" then b else a

/-- The record stored by the snapshot loop (lines 52-65):
`elem.style.position || computedStyle.position`, the raw inline
`left`/`top`/`transform`/`cursor`, and `elem.style.zIndex || computed`. -/
def snapshotOf (e : DomElem) : SnapRec :=
  { position := jsOr e.style.position e.computedPosition
    left := e.style.left
    top := e.style.top
    transform := e.style.transform
    zIndex := jsOr e.style.zIndex e.computedZIndex
    cursor := e.style.cursor }

/-- Mode-controller state of `BlackHoleMode`: the `isActive` flag, the
collected `affectedElements` (by id), the `elementStates` map in insertion
order, the suction animation's `startTime` (set by
`startSuckingAnimation`), `floatingElements` (by id) and whether an
animation frame is outstanding. -/
structure BHState where
  isActive : Bool
  affected : List ℕ
  states : List (ℕ × SnapRec)
  suctionStart : Option ℕ
  floatingIds : List ℕ
  scheduled : Bool
deriving DecidableEq

/-- `elementStates.has(elem)`. -/
def hasState (sts : List (ℕ × SnapRec)) (i : ℕ) : Bool :=
  sts.any (fun q => q.1 = i)

/-- `activateBlackHole` (lines 43-80): unconditionally set the active flag,
record the target elements, snapshot each target that has no entry yet, and
start the suction animation (whose `startTime = Date.now()` is `now`).
`targets` is the de-duplicated result of `getAffectedElements`; container
class toggling and the power-button style tweak touch no target element
and are not modelled. -/
def activateBlackHole (now : ℕ) (doc : List DomElem) (targets : List ℕ)
    (s : BHState) : BHState :=
  { s with
    isActive := true
    affected := targets
    states := targets.foldl (fun acc tid =>
      if hasState acc tid then acc
      else
        match doc.find? (fun e => e.id = tid) with
        | some e => acc ++ [(tid, snapshotOf e)]
        | none => acc) s.states
    suctionStart := some now
    scheduled := true }

/-- `deactivateBlackHole` (lines 82-137): unconditionally clear the active
flag, cancel the outstanding frame, and for every stored element still in
the document set all eight inline style properties to the empty string —
the stored snapshot values are never read — then clear
`floatingElements`, `affectedElements` and `elementStates`.  (The
black-hole div size reset and canvas/topbar class changes touch no target
element and are not modelled.) -/
def deactivateBlackHole (doc : List DomElem) (s : BHState) :
    List DomElem × BHState :=
  (doc.map fun e =>
      if hasState s.states e.id && e.attached then { e with style := clearedStyle }
      else e,
    { s with isActive := false, scheduled := false,
             floatingIds := [], affected := [], states := [] })

/-- `toggleBlackHole` (lines 35-41): the only place the active flag is
checked. -/
def toggleBlackHole (now : ℕ) (doc : List DomElem) (targets : List ℕ)
    (s : BHState) : List DomElem × BHState :=
  if s.isActive = false then (doc, activateBlackHole now doc targets s)
  else deactivateBlackHole doc s

/-- The single C2 scenario element: pre-activation inline style
`left: 10px`, everything else from stylesheets. -/
def c2Elem : DomElem :=
  { id := 0
    style := { clearedStyle with left := "10px" }
    computedPosition := "static"
    computedZIndex := "auto"
    attached := true }

def c2Doc : List DomElem := [c2Elem]

def c2Inactive : BHState :=
  { isActive := false, affected := [], states := [], suctionStart := none,
    floatingIds := [], scheduled := false }

end Snap

namespace Csv

theorem setKey_good {m : CsvMap} {k : List Char} {v : List (List Char)}
    (hm : ∀ p ∈ m, goodEntry p) (hkv : goodEntry (k, v)) :
    ∀ p ∈ setKey m k v, goodEntry p := by
  intro p hp
  unfold setKey at hp
  by_cases hmem : m.any (fun q => q.1 = k)
  · rw [if_pos hmem] at hp
    rcases List.mem_map.mp hp with ⟨q, hq, rfl⟩
    by_cases hqk : q.1 = k
    · simpa [hqk] using hkv
    · simpa [hqk] using hm q hq
  · rw [if_neg hmem] at hp
    rcases List.mem_append.mp hp with h | h
    · exact hm p h
    · rcases List.mem_singleton.mp h with rfl
      exact hkv

theorem processRows_good (rows : List (List Char)) (m : CsvMap)
    (hm : ∀ p ∈ m, goodEntry p) : ∀ p ∈ processRows rows m, goodEntry p := by
  induction rows generalizing m with
  | nil => simpa [processRows] using hm
  | cons line rest ih =>
      intro p hp
      unfold processRows at hp
      by_cases h0 : (parseCSVLine line).length = 0
      · rw [if_pos h0] at hp
        exact ih m hm p hp
      · rw [if_neg h0] at hp
        by_cases hg : (parseCSVLine line).headD [] = []
        · rw [if_pos hg] at hp
          exact ih m hm p hp
        · rw [if_neg hg] at hp
          by_cases ha :
              0 < (((parseCSVLine line).drop 1).filter fun a =>
                !a.isEmpty && !(jsTrim a).isEmpty).length
          · rw [if_pos ha] at hp
            refine ih _ ?_ p hp
            refine setKey_good hm ⟨hg, List.ne_nil_of_length_pos ha, ?_⟩
            intro a hamem
            have hcond := (List.mem_filter.mp hamem).2
            constructor
            · intro hae
              simp [hae] at hcond
            · intro hte
              simp [hte] at hcond
          · rw [if_neg ha] at hp
            exact ih m hm p hp

end Csv

/-- C9: `parseCSV` returns `none` exactly when the trimmed input has fewer
than 2 lines; otherwise it returns a map in which every key is a non-empty
game name and every value is a non-empty list of non-blank account strings
(rows with an empty first field or no non-blank remaining fields contribute
nothing). -/
theorem parseCSV_shape (csv : List Char) :
    (Csv.parseCSV csv = none ↔ (Csv.splitNl (Csv.jsTrim csv)).length < 2) ∧
    (∀ m, Csv.parseCSV csv = some m →
      ∀ p ∈ m, p.1 ≠ [] ∧ p.2 ≠ [] ∧ ∀ a ∈ p.2, a ≠ [] ∧ Csv.jsTrim a ≠ []) := by
  constructor
  · unfold Csv.parseCSV
    by_cases h : (Csv.splitNl (Csv.jsTrim csv)).length < 2
    · simp [h]
    · simp [h]
  · intro m hm p hp
    unfold Csv.parseCSV at hm
    by_cases h : (Csv.splitNl (Csv.jsTrim csv)).length < 2
    · rw [if_pos h] at hm
      exact absurd hm (by simp)
    · rw [if_neg h] at hm
      injection hm with hm'
      subst hm'
      exact Csv.processRows_good _ [] (by simp) p hp

/-- Witness for C9 on a concrete two-line sheet. -/
theorem parseCSV_shape_witness :
    Csv.parseCSV ("h1,h2\nGame,alpha".data) =
      some [("Game".data, ["alpha".data])] ∧
    ("Game".data ≠ ([] : List Char) ∧
      (["alpha".data] : List (List Char)) ≠ [] ∧
      ∀ a ∈ [("alpha".data : List Char)], a ≠ [] ∧ Csv.jsTrim a ≠ []) :=
  ⟨by decide, (parseCSV_shape ("h1,h2\nGame,alpha".data)).2
    [("Game".data, ["alpha".data])] (by decide) ("Game".data, ["alpha".data])
    (by decide)⟩

/-- C10: the stored `extraAccounts` counter never becomes negative —
`useExtraAccount` decrements only when the counter is strictly positive and
returns `true` exactly then; the claim flow (`showAccountModal`) touches the
counter only when a game was already taken today. -/
theorem extra_accounts_nonneg (s : Accounts.Storage) (today game : String) :
    ((Accounts.useExtraAccount s).1 = true ↔ 0 < Accounts.extraCount s) ∧
    ((Accounts.useExtraAccount s).2.extraAccounts ≠ s.extraAccounts →
      0 < Accounts.extraCount s) ∧
    (0 ≤ Accounts.extraCount s →
      0 ≤ Accounts.extraCount (Accounts.useExtraAccount s).2) ∧
    ((Accounts.showAccountModalStore today game s).extraAccounts ≠
        s.extraAccounts →
      Accounts.hasTakenGameToday today s = true) := by
  have hcases := lt_or_le 0 (Accounts.extraCount s)
  refine ⟨?_, ?_, ?_, ?_⟩
  · rcases hcases with hn | hn
    · have hn' : 0 < s.extraAccounts.getD 0 := hn
      simp [Accounts.useExtraAccount, Accounts.extraCount, hn']
    · have hn' : ¬ 0 < s.extraAccounts.getD 0 := not_lt.mpr hn
      simp [Accounts.useExtraAccount, Accounts.extraCount, hn']
  · intro hne
    rcases hcases with hn | hn
    · exact hn
    · have hn' : ¬ 0 < s.extraAccounts.getD 0 := not_lt.mpr hn
      simp [Accounts.useExtraAccount, Accounts.extraCount, hn'] at hne
  · intro h0
    rcases hcases with hn | hn
    · have hn' : 0 < s.extraAccounts.getD 0 := hn
      simp [Accounts.useExtraAccount, Accounts.extraCount, hn']
      omega
    · have hn' : ¬ 0 < s.extraAccounts.getD 0 := not_lt.mpr hn
      simp [Accounts.useExtraAccount, Accounts.extraCount, hn']
      exact h0
  · intro hne
    by_cases ht : Accounts.hasTakenGameToday today s
    · exact ht
    · exfalso
      apply hne
      unfold Accounts.showAccountModalStore
      split_ifs with hc
      · rfl
      · simp only [ht, if_false, Bool.false_eq_true]
        rfl

/-- Witness for C10 with three stored extra accounts on a day whose game was
already taken. -/
theorem extra_accounts_nonneg_witness :
    (0 : Int) ≤ Accounts.extraCount ⟨some "2026-10-11", some "X", some 3⟩ ∧
    (0 : Int) ≤ Accounts.extraCount
      (Accounts.useExtraAccount ⟨some "2026-10-11", some "X", some 3⟩).2 :=
  ⟨by decide, (extra_accounts_nonneg ⟨some "2026-10-11", some "X", some 3⟩
    "2026-10-11" "Game").2.2.1 (by decide)⟩

namespace Floats

theorem four_lt_sqrt_iff (s : ℝ) : 4 < Real.sqrt s ↔ 16 < s := by
  rw [Real.lt_sqrt (by norm_num : (0:ℝ) ≤ 4)]
  norm_num

theorem clampStep_pos (b : FloatBody) (h : 4 < speedOf b) :
    clampStep b =
      { b with vx := b.vx / speedOf b * 4, vy := b.vy / speedOf b * 4 } := by
  simp only [clampStep]
  rw [if_pos (show Real.sqrt (b.vx ^ 2 + b.vy ^ 2) > 4 from h)]
  rfl

theorem clampStep_neg (b : FloatBody) (h : ¬ 4 < speedOf b) :
    clampStep b = b := by
  simp only [clampStep]
  rw [if_neg (show ¬ Real.sqrt (b.vx ^ 2 + b.vy ^ 2) > 4 from h)]

theorem clampStep_mag (b : FloatBody) (h : 4 < speedOf b) :
    speedOf (clampStep b) = 4 := by
  have hs0 : (0:ℝ) < speedOf b := by linarith
  have hsq : speedOf b ^ 2 = b.vx ^ 2 + b.vy ^ 2 :=
    Real.sq_sqrt (by positivity)
  have hpos : 0 < b.vx ^ 2 + b.vy ^ 2 := by nlinarith
  rw [clampStep_pos b h]
  show Real.sqrt ((b.vx / speedOf b * 4) ^ 2 + (b.vy / speedOf b * 4) ^ 2) = 4
  have hval : (b.vx / speedOf b * 4) ^ 2 + (b.vy / speedOf b * 4) ^ 2 = 16 := by
    have h1 : (b.vx / speedOf b * 4) ^ 2 + (b.vy / speedOf b * 4) ^ 2
        = (16 * b.vx ^ 2 + 16 * b.vy ^ 2) / speedOf b ^ 2 := by ring
    rw [h1, hsq, div_eq_iff (ne_of_gt hpos)]
    ring
  rw [hval, show (16:ℝ) = 4 ^ 2 by norm_num,
    Real.sqrt_sq (by norm_num : (0:ℝ) ≤ 4)]

theorem clampStep_le (b : FloatBody) : speedOf (clampStep b) ≤ 4 := by
  by_cases h : 4 < speedOf b
  · exact le_of_eq (clampStep_mag b h)
  · rw [clampStep_neg b h]
    exact not_lt.mp h

theorem bounceStep_vel_sq (W H : ℝ) (b : FloatBody) :
    (bounceStep W H b).vx ^ 2 = b.vx ^ 2 ∧
    (bounceStep W H b).vy ^ 2 = b.vy ^ 2 := by
  simp only [bounceStep]
  split_ifs <;> constructor <;> simp [sq_abs, neg_sq]

theorem later_steps_speed (W H : ℝ) (c : FloatBody) :
    speedOf (bounceStep W H (integrateStep c)) = speedOf c := by
  unfold speedOf
  rw [(bounceStep_vel_sq W H (integrateStep c)).1,
    (bounceStep_vel_sq W H (integrateStep c)).2]
  rfl

/-- C8: after the speed-clamp step the velocity magnitude is at most 4;
when the pre-clamp magnitude exceeds 4 the clamp rescales both components
by `4 / speed`, giving magnitude exactly 4 with direction preserved; the
later steps of the same tick (integration, then edge bounce) leave the
magnitude unchanged, so it never increases after the clamp. -/
theorem clamp_speed_bounds (W H : ℝ) (b : FloatBody) :
    speedOf (clampStep b) ≤ 4 ∧
    (4 < speedOf b →
      speedOf (clampStep b) = 4 ∧
      (clampStep b).vx = b.vx / speedOf b * 4 ∧
      (clampStep b).vy = b.vy / speedOf b * 4) ∧
    speedOf (bounceStep W H (integrateStep (clampStep b))) =
      speedOf (clampStep b) := by
  refine ⟨clampStep_le b, ?_, later_steps_speed W H (clampStep b)⟩
  intro h
  refine ⟨clampStep_mag b h, ?_, ?_⟩
  · rw [clampStep_pos b h]
  · rw [clampStep_pos b h]

/-- Witness for C8 at velocity (5, 0): pre-clamp speed exceeds 4 and the
clamp lands on magnitude exactly 4. -/
theorem clamp_speed_bounds_witness :
    4 < speedOf ⟨0, 0, 5, 0, 10, 10⟩ ∧
    speedOf (clampStep ⟨0, 0, 5, 0, 10, 10⟩) = 4 := by
  have h : 4 < speedOf (⟨0, 0, 5, 0, 10, 10⟩ : FloatBody) := by
    show (4:ℝ) < Real.sqrt ((5:ℝ) ^ 2 + (0:ℝ) ^ 2)
    rw [four_lt_sqrt_iff]
    norm_num
  exact ⟨h, ((clamp_speed_bounds 100 100 ⟨0, 0, 5, 0, 10, 10⟩).2.1 h).1⟩

end Floats

namespace Floats

theorem bounceStep_in_bounds (W H : ℝ) (b : FloatBody)
    (hwW : b.w ≤ W) (hhH : b.h ≤ H) :
    0 ≤ (bounceStep W H b).x - b.w / 2 ∧ (bounceStep W H b).x + b.w / 2 ≤ W ∧
    0 ≤ (bounceStep W H b).y - b.h / 2 ∧ (bounceStep W H b).y + b.h / 2 ≤ H := by
  simp only [bounceStep]
  split_ifs <;> (try dsimp only at *) <;>
    refine ⟨by linarith, by linarith, by linarith, by linarith⟩

theorem bounceStep_left (W H : ℝ) (b : FloatBody) (hwW : b.w ≤ W)
    (h : b.x - b.w / 2 < 0) :
    (bounceStep W H b).x = b.w / 2 ∧ (bounceStep W H b).vx = |b.vx| := by
  simp only [bounceStep]
  split_ifs <;> (try dsimp only at *) <;>
    first
    | exact ⟨rfl, rfl⟩
    | (exfalso; linarith)

theorem bounceStep_right (W H : ℝ) (b : FloatBody) (h0 : 0 ≤ b.x - b.w / 2)
    (h : W < b.x + b.w / 2) :
    (bounceStep W H b).x = W - b.w / 2 ∧ (bounceStep W H b).vx = -|b.vx| := by
  simp only [bounceStep]
  split_ifs <;> (try dsimp only at *) <;>
    first
    | exact ⟨rfl, rfl⟩
    | (exfalso; linarith)

theorem bounceStep_top (W H : ℝ) (b : FloatBody) (hhH : b.h ≤ H)
    (h : b.y - b.h / 2 < 0) :
    (bounceStep W H b).y = b.h / 2 ∧ (bounceStep W H b).vy = |b.vy| := by
  simp only [bounceStep]
  split_ifs <;> (try dsimp only at *) <;>
    first
    | exact ⟨rfl, rfl⟩
    | (exfalso; linarith)

theorem bounceStep_bottom (W H : ℝ) (b : FloatBody) (h0 : 0 ≤ b.y - b.h / 2)
    (h : H < b.y + b.h / 2) :
    (bounceStep W H b).y = H - b.h / 2 ∧ (bounceStep W H b).vy = -|b.vy| := by
  simp only [bounceStep]
  split_ifs <;> (try dsimp only at *) <;>
    first
    | exact ⟨rfl, rfl⟩
    | (exfalso; linarith)

theorem clampStep_w (b : FloatBody) : (clampStep b).w = b.w := by
  simp only [clampStep]
  split_ifs <;> rfl

theorem clampStep_h (b : FloatBody) : (clampStep b).h = b.h := by
  simp only [clampStep]
  split_ifs <;> rfl

theorem pre_bounce_w (r1 r2 : ℝ) (b : FloatBody) :
    (integrateStep (clampStep (jitterStep r1 r2 (dampStep b)))).w = b.w := by
  show (clampStep (jitterStep r1 r2 (dampStep b))).w = b.w
  rw [clampStep_w]
  rfl

theorem pre_bounce_h (r1 r2 : ℝ) (b : FloatBody) :
    (integrateStep (clampStep (jitterStep r1 r2 (dampStep b)))).h = b.h := by
  show (clampStep (jitterStep r1 r2 (dampStep b))).h = b.h
  rw [clampStep_h]
  rfl

end Floats

namespace Floats

/-- C4 counterexample: start at x = 4 (box width 10, so the left edge is
at -1) with a small rightward velocity and zero jitter.  After integration
the left edge sits at -0.902, crossing the x = 0 boundary, yet the tick
leaves vx at 0.098 — the inward-pointing component is not negated, because
the source uses `Math.abs`, not negation. -/
theorem bounce_crossing_velocity_not_negated :
    (integrateStep (clampStep (jitterStep 0.5 0.5
        (dampStep ⟨4, 50, 0.1, 0, 10, 10⟩)))).x - 10 / 2 < 0 ∧
    (integrateStep (clampStep (jitterStep 0.5 0.5
        (dampStep ⟨4, 50, 0.1, 0, 10, 10⟩)))).vx = 0.098 ∧
    (floatTick 100 100 0.5 0.5 ⟨4, 50, 0.1, 0, 10, 10⟩).vx = 0.098 ∧
    (0.098 : ℝ) ≠ -0.098 := by
  have hpre : integrateStep (clampStep (jitterStep 0.5 0.5
      (dampStep ⟨4, 50, 0.1, 0, 10, 10⟩))) = ⟨4.098, 50, 0.098, 0, 10, 10⟩ := by
    simp only [dampStep, jitterStep, clampStep, integrateStep, gt_iff_lt,
      four_lt_sqrt_iff]
    norm_num
  have htick : floatTick 100 100 0.5 0.5 ⟨4, 50, 0.1, 0, 10, 10⟩
      = ⟨5, 50, 0.098, 0, 10, 10⟩ := by
    show bounceStep 100 100 (integrateStep (clampStep (jitterStep 0.5 0.5
      (dampStep ⟨4, 50, 0.1, 0, 10, 10⟩)))) = ⟨5, 50, 0.098, 0, 10, 10⟩
    rw [hpre]
    simp only [bounceStep]
    norm_num
  refine ⟨by rw [hpre]; norm_num, by rw [hpre], by rw [htick], by norm_num⟩

/-- C4 (amended): provided the element's box is no larger than the
viewport, every float tick leaves the bounding box inside
[0, W] × [0, H]; whenever an edge of the box crosses a boundary the bounce
clamps the centre to that boundary and forces the velocity component on
that axis to point back into the viewport (absolute value at the low edge,
minus absolute value at the high edge) — which negates it exactly when it
pointed outward. -/
theorem float_tick_bounds_and_reflect (W H r1 r2 : ℝ) (b : FloatBody)
    (hwW : b.w ≤ W) (hhH : b.h ≤ H) :
    (0 ≤ (floatTick W H r1 r2 b).x - b.w / 2 ∧
     (floatTick W H r1 r2 b).x + b.w / 2 ≤ W ∧
     0 ≤ (floatTick W H r1 r2 b).y - b.h / 2 ∧
     (floatTick W H r1 r2 b).y + b.h / 2 ≤ H) ∧
    (∀ c : FloatBody, c.w ≤ W → c.h ≤ H →
      (c.x - c.w / 2 < 0 →
        (bounceStep W H c).x = c.w / 2 ∧ (bounceStep W H c).vx = |c.vx|) ∧
      (0 ≤ c.x - c.w / 2 → W < c.x + c.w / 2 →
        (bounceStep W H c).x = W - c.w / 2 ∧ (bounceStep W H c).vx = -|c.vx|) ∧
      (c.y - c.h / 2 < 0 →
        (bounceStep W H c).y = c.h / 2 ∧ (bounceStep W H c).vy = |c.vy|) ∧
      (0 ≤ c.y - c.h / 2 → H < c.y + c.h / 2 →
        (bounceStep W H c).y = H - c.h / 2 ∧ (bounceStep W H c).vy = -|c.vy|)) := by
  constructor
  · have hw := pre_bounce_w r1 r2 b
    have hh := pre_bounce_h r1 r2 b
    have hmain := bounceStep_in_bounds W H
      (integrateStep (clampStep (jitterStep r1 r2 (dampStep b))))
      (by rw [hw]; exact hwW) (by rw [hh]; exact hhH)
    rw [hw, hh] at hmain
    exact hmain
  · intro c hcW hcH
    exact ⟨fun h => bounceStep_left W H c hcW h,
      fun h0 h => bounceStep_right W H c h0 h,
      fun h => bounceStep_top W H c hcH h,
      fun h0 h => bounceStep_bottom W H c h0 h⟩

/-- Witness for C4 (amended) on a 10 × 20 box in a 1000 × 800 viewport. -/
theorem float_tick_bounds_and_reflect_witness :
    (10 : ℝ) ≤ 1000 ∧ (20 : ℝ) ≤ 800 ∧
    (0 ≤ (floatTick 1000 800 0.3 0.7 ⟨50, 60, 1, 2, 10, 20⟩).x - 10 / 2 ∧
     (floatTick 1000 800 0.3 0.7 ⟨50, 60, 1, 2, 10, 20⟩).x + 10 / 2 ≤ 1000 ∧
     0 ≤ (floatTick 1000 800 0.3 0.7 ⟨50, 60, 1, 2, 10, 20⟩).y - 20 / 2 ∧
     (floatTick 1000 800 0.3 0.7 ⟨50, 60, 1, 2, 10, 20⟩).y + 20 / 2 ≤ 800) :=
  ⟨by norm_num, by norm_num,
    (float_tick_bounds_and_reflect 1000 800 0.3 0.7 ⟨50, 60, 1, 2, 10, 20⟩
      (by norm_num) (by norm_num)).1⟩

/-- C3 (code defect): one frame of `animateFloatingElements` moves the body
owned by the open drag session, because the loop never consults
`draggedElement`.  With zero jitter (`Math.random()` returning 0.5) and
velocity (1, 0), the dragged body's x moves from 100 to 100.98. -/
theorem float_tick_moves_dragged_body :
    (floatFrame 1000 1000 (fun _ => (0.5, 0.5))
        { bodies := [⟨100, 100, 1, 0, 10, 10⟩], dragged := some 0,
          isActive := true }).bodies = [⟨100.98, 100, 0.98, 0, 10, 10⟩] ∧
    (floatFrame 1000 1000 (fun _ => (0.5, 0.5))
        { bodies := [⟨100, 100, 1, 0, 10, 10⟩], dragged := some 0,
          isActive := true }).dragged = some 0 ∧
    (100.98 : ℝ) ≠ 100 := by
  have hb : floatTick 1000 1000 0.5 0.5 ⟨100, 100, 1, 0, 10, 10⟩
      = ⟨100.98, 100, 0.98, 0, 10, 10⟩ := by
    simp only [floatTick, dampStep, jitterStep, clampStep, integrateStep,
      bounceStep, gt_iff_lt, four_lt_sqrt_iff]
    norm_num
  refine ⟨?_, rfl, by norm_num⟩
  simp only [floatFrame, mapWithIdx, mapWithIdxAux]
  rw [hb]

end Floats

namespace Suction

theorem suctionOpacity_eq_spec (p d : ℝ) (hd : 0 ≤ d) :
    suctionOpacity p d = specOpacity d p := by
  unfold suctionOpacity specOpacity
  have hA : (1 : ℝ) - min d 400 / 400 = max 0 (1 - d / 400) := by
    rcases le_total d 400 with h | h
    · rw [min_eq_left h, max_eq_right (by linarith : (0:ℝ) ≤ 1 - d / 400)]
    · rw [min_eq_right h, max_eq_left (by linarith : 1 - d / 400 ≤ (0:ℝ))]
      norm_num
  rw [hA]
  have hts : (1 : ℝ) - 1.5 * p = 1 - p * 1.5 := by ring
  rw [hts]
  have hA0 : (0:ℝ) ≤ max 0 (1 - d / 400) := le_max_left _ _
  rcases le_total (1 - p * 1.5) 0 with ht | ht
  · rw [max_eq_left ht, mul_zero, max_self]
    exact (max_eq_left (mul_nonpos_iff.mpr (Or.inl ⟨hA0, ht⟩))).symm
  · rw [max_eq_right ht]

theorem suctionOpacity_bounds (p d : ℝ) (hp : 0 ≤ p) (hd : 0 ≤ d) :
    0 ≤ suctionOpacity p d ∧ suctionOpacity p d ≤ 1 := by
  unfold suctionOpacity
  refine ⟨le_max_left _ _, ?_⟩
  have h1 : max 0 (1 - d / 400) ≤ 1 := by
    apply max_le (by norm_num)
    have : (0:ℝ) ≤ d / 400 := div_nonneg hd (by norm_num)
    linarith
  have h2 : max 0 (1 - p * 1.5) ≤ 1 := by
    apply max_le (by norm_num)
    nlinarith
  have h0b : (0:ℝ) ≤ max 0 (1 - p * 1.5) := le_max_left _ _
  exact max_le (by norm_num) (mul_le_one h1 h0b h2)

theorem specOpacity_zero (p d : ℝ) (hp : 0.8 ≤ p) (hd : 0 ≤ d) :
    specOpacity d p = 0 := by
  unfold specOpacity
  have hmin : min d 400 ≤ 400 := min_le_right _ _
  have hA0 : (0:ℝ) ≤ 1 - min d 400 / 400 := by linarith
  have ht : (1:ℝ) - 1.5 * p ≤ 0 := by nlinarith
  exact max_eq_left (mul_nonpos_iff.mpr (Or.inl ⟨hA0, ht⟩))

end Suction

/-- C6: with distance held fixed and nonnegative, the suction speed
`(8 + 15p) × (1 + 5 × max(0, 1 − distance/600))` is non-decreasing in
progress below the 0.8 threshold. -/
theorem suction_speed_monotone (d p1 p2 : ℝ) (hd : 0 ≤ d) (h12 : p1 < p2)
    (h2 : p2 < 0.8) :
    Suction.suctionSpeed p1 d ≤ Suction.suctionSpeed p2 d := by
  unfold Suction.suctionSpeed
  have hfac : (0:ℝ) ≤ 1 + max 0 (1 - d / 600) * 5 := by
    nlinarith [le_max_left (0:ℝ) (1 - d / 600)]
  have hbase : (8:ℝ) + p1 * 15 ≤ 8 + p2 * 15 := by nlinarith
  exact mul_le_mul_of_nonneg_right hbase hfac

/-- Witness for C6 at distance 100 with progress 0.1 < 0.5 < 0.8. -/
theorem suction_speed_monotone_witness :
    (0:ℝ) ≤ 100 ∧ (0.1:ℝ) < 0.5 ∧ (0.5:ℝ) < 0.8 ∧
    Suction.suctionSpeed 0.1 100 ≤ Suction.suctionSpeed 0.5 100 :=
  ⟨by norm_num, by norm_num, by norm_num,
    suction_speed_monotone 100 0.1 0.5 (by norm_num) (by norm_num) (by norm_num)⟩

/-- C7: for a laid-out, snapshot-backed element and progress in [0, 1), the
opacity the suction step writes equals the spec formula
`max(0, (1 − min(distance, 400)/400) × (1 − 1.5p))` and lies in [0, 1];
from progress 0.8 on it is exactly 0 with pointer events disabled,
overriding the formula. -/
theorem suction_opacity_correct (bhx bhy p nowMs : ℝ) (idx : ℕ)
    (e : Suction.SElem) (hvis : e.offsetParent = true)
    (hsnap : e.hasSnapshot = true) (hp0 : 0 ≤ p) (hp1 : p < 1) :
    (Suction.suctionElemStep bhx bhy p nowMs idx e).opacity
      = Suction.specOpacity (Suction.distTo bhx bhy e) p ∧
    0 ≤ (Suction.suctionElemStep bhx bhy p nowMs idx e).opacity ∧
    (Suction.suctionElemStep bhx bhy p nowMs idx e).opacity ≤ 1 ∧
    (0.8 ≤ p →
      (Suction.suctionElemStep bhx bhy p nowMs idx e).opacity = 0 ∧
      (Suction.suctionElemStep bhx bhy p nowMs idx e).pointerEventsNone = true) := by
  have hd : 0 ≤ Suction.distTo bhx bhy e := Real.sqrt_nonneg _
  by_cases h8 : p < 0.8
  · have hstep : (Suction.suctionElemStep bhx bhy p nowMs idx e).opacity
        = Suction.suctionOpacity p (Suction.distTo bhx bhy e) := by
      simp only [Suction.suctionElemStep, hvis, hsnap, Bool.true_eq_false,
        or_self, if_false]
      rw [if_pos h8]
    rw [hstep]
    refine ⟨Suction.suctionOpacity_eq_spec p _ hd,
      (Suction.suctionOpacity_bounds p _ hp0 hd).1,
      (Suction.suctionOpacity_bounds p _ hp0 hd).2, ?_⟩
    intro h
    linarith
  · have h8' : (0.8:ℝ) ≤ p := not_lt.mp h8
    have hstep : Suction.suctionElemStep bhx bhy p nowMs idx e
        = { e with opacity := 0, pointerEventsNone := true } := by
      simp only [Suction.suctionElemStep, hvis, hsnap, Bool.true_eq_false,
        or_self, if_false]
      rw [if_neg h8]
    rw [hstep]
    exact ⟨(Suction.specOpacity_zero p _ h8' hd).symm, le_refl 0, by norm_num,
      fun _ => ⟨rfl, rfl⟩⟩

/-- Witness for C7 at progress 0.5 on a visible element 300 px left of and
250 px above the focal point. -/
theorem suction_opacity_correct_witness :
    (⟨100, 50, 10, 10, 1, 1, 0, 0, 0, false, false, false, true, true⟩ :
        Suction.SElem).offsetParent = true ∧
    (⟨100, 50, 10, 10, 1, 1, 0, 0, 0, false, false, false, true, true⟩ :
        Suction.SElem).hasSnapshot = true ∧
    (0:ℝ) ≤ 0.5 ∧ (0.5:ℝ) < 1 ∧
    0 ≤ (Suction.suctionElemStep 400 300 0.5 0 0
        ⟨100, 50, 10, 10, 1, 1, 0, 0, 0, false, false, false, true, true⟩).opacity ∧
    (Suction.suctionElemStep 400 300 0.5 0 0
        ⟨100, 50, 10, 10, 1, 1, 0, 0, 0, false, false, false, true, true⟩).opacity ≤ 1 :=
  ⟨rfl, rfl, by norm_num, by norm_num,
    (suction_opacity_correct 400 300 0.5 0 0 _ rfl rfl (by norm_num)
      (by norm_num)).2.1,
    (suction_opacity_correct 400 300 0.5 0 0 _ rfl rfl (by norm_num)
      (by norm_num)).2.2.1⟩

/-- C1 (code defect): when progress reaches 1.0 (3500 ms after activation)
the animation does force all five affected elements to opacity 0 with
pointer events disabled, but no element acquires a FloatBody:
`floatingElements` stays empty and `transitionToFloating` has no call site,
so the float phase never begins. -/
theorem suction_complete_no_floatbody :
    (Suction.animateStep 400 300 0 3500 Suction.c1Start).elems.length = 5 ∧
    (∀ e ∈ (Suction.animateStep 400 300 0 3500 Suction.c1Start).elems,
      e.opacity = 0 ∧ e.pointerEventsNone = true) ∧
    (Suction.animateStep 400 300 0 3500 Suction.c1Start).floating = [] ∧
    (Suction.animateStep 400 300 0 3500 Suction.c1Start).scheduled = false := by
  have hstep : ∀ (i : ℕ) (x : ℝ),
      Suction.suctionElemStep 400 300 1 3500 i (Suction.c1Elem x)
        = Suction.c1Done x := by
    intro i x
    simp only [Suction.suctionElemStep, Suction.c1Elem, Suction.c1Done,
      Bool.true_eq_false, or_self, if_false]
    rw [if_neg (by norm_num : ¬ (1:ℝ) < 0.8)]
  have key : Suction.animateStep 400 300 0 3500 Suction.c1Start
      = { elems := [Suction.c1Done 100, Suction.c1Done 200, Suction.c1Done 300,
                    Suction.c1Done 400, Suction.c1Done 500],
          floating := [], holeRadius := 400, scheduled := false } := by
    have hprog : min (1:ℝ) ((3500 - 0) / 3500) = 1 := by norm_num
    simp only [Suction.animateStep, hprog]
    rw [if_neg (lt_irrefl (1:ℝ))]
    simp only [Suction.c1Start, Floats.mapWithIdx, Floats.mapWithIdxAux, hstep,
      Suction.finalizeBlackHoleAnimation, List.map]
    norm_num [Suction.c1Done, Suction.c1Elem]
  rw [key]
  refine ⟨rfl, ?_, rfl, rfl⟩
  intro e he
  simp only [List.mem_cons, List.not_mem_nil, or_false] at he
  rcases he with rfl | rfl | rfl | rfl | rfl <;> exact ⟨rfl, rfl⟩

/-- C2 (code defect): deactivation clears every inline style to the empty
string instead of writing back the captured snapshot values.  For an
element whose pre-activation inline style was `left: 10px`, the snapshot
stores "10px", yet after activate → deactivate the element's `left` is the
empty string — not byte-for-byte equal to the captured value — although the
store itself is cleared as described. -/
theorem deactivate_clears_styles_not_snapshot :
    (Snap.activateBlackHole 0 Snap.c2Doc [0] Snap.c2Inactive).states =
      [(0, ⟨"static", "10px", "", "", "auto", ""⟩)] ∧
    (Snap.deactivateBlackHole Snap.c2Doc
        (Snap.activateBlackHole 0 Snap.c2Doc [0] Snap.c2Inactive)).1 =
      [{ Snap.c2Elem with style := Snap.clearedStyle }] ∧
    (Snap.deactivateBlackHole Snap.c2Doc
        (Snap.activateBlackHole 0 Snap.c2Doc [0] Snap.c2Inactive)).2.states = [] ∧
    ("" : String) ≠ "10px" := by
  refine ⟨by decide, by decide, by decide, by decide⟩

/-- C5 counterexample: `activateBlackHole` itself checks no flag — calling
it a second time while the mode is already active restarts the suction
timer (the `startTime` of `startSuckingAnimation` moves from 0 to 100), so
a direct double activation is not a no-op. -/
theorem activate_twice_not_noop :
    (Snap.activateBlackHole 0 [] [] Snap.c2Inactive).isActive = true ∧
    (Snap.activateBlackHole 0 [] [] Snap.c2Inactive).suctionStart = some 0 ∧
    (Snap.activateBlackHole 100 [] []
        (Snap.activateBlackHole 0 [] [] Snap.c2Inactive)).suctionStart = some 100 ∧
    Snap.activateBlackHole 100 [] []
        (Snap.activateBlackHole 0 [] [] Snap.c2Inactive) ≠
      Snap.activateBlackHole 0 [] [] Snap.c2Inactive := by
  refine ⟨rfl, rfl, rfl, by decide⟩

/-- C5 (amended): the active-flag check lives in `toggleBlackHole`, which
dispatches to activate only from the inactive state and to deactivate only
from the active state, so neither double-activation nor double-deactivation
occurs through the toggle entry point; repeating `deactivateBlackHole` on an
already-deactivated state changes nothing (safe), but `activateBlackHole`
and `deactivateBlackHole` themselves perform no flag check, and a direct
second activate restarts the suction animation. -/
theorem toggle_guard_and_deactivate_idempotent (now : ℕ)
    (doc : List Snap.DomElem) (targets : List ℕ) (s : Snap.BHState) :
    (s.isActive = false →
      Snap.toggleBlackHole now doc targets s
        = (doc, Snap.activateBlackHole now doc targets s)) ∧
    (s.isActive = true →
      Snap.toggleBlackHole now doc targets s = Snap.deactivateBlackHole doc s) ∧
    Snap.deactivateBlackHole (Snap.deactivateBlackHole doc s).1
        (Snap.deactivateBlackHole doc s).2
      = Snap.deactivateBlackHole doc s := by
  refine ⟨?_, ?_, ?_⟩
  · intro h
    simp [Snap.toggleBlackHole, h]
  · intro h
    simp [Snap.toggleBlackHole, h]
  · simp [Snap.deactivateBlackHole, Snap.hasState]

/-- Witness for C5 (amended): toggling from the inactive state is exactly
an activation. -/
theorem toggle_guard_witness :
    Snap.c2Inactive.isActive = false ∧
    Snap.toggleBlackHole 7 [] [] Snap.c2Inactive
      = ([], Snap.activateBlackHole 7 [] [] Snap.c2Inactive) :=
  ⟨rfl, (toggle_guard_and_deactivate_idempotent 7 [] [] Snap.c2Inactive).1 rfl⟩
